import Mathlib

/-!
Verification development for the SheerID student-verification automation
repository.  The definitions below are a shallow embedding of the Python
sources:

* `SheerIDClient._compute_backoff_sec` and `SheerIDClient.request_json`
  (src/sheerid_client.py),
* the candidate search-term derivation and the selection-round loop of
  `FormFiller.fill_org_and_select_first` (src/form_filler.py),
* the submit-readiness gate and control flow of
  `VerificationOrchestrator.run` (src/verification_orchestrator.py),
* `SheerIDApiService.precheck` (src/sheerid_api_service.py),
* `SheerIDVerifier.verify` and `SheerIDVerifier._do_precheck`
  (src/sheerid_verifier.py).

Python `Optional` values are embedded as `Option`, dict lookups as record
fields, exceptions as explicit outcome constructors, and the swallow-all
`except` blocks as the corresponding branch structure.
-/

namespace SheerID

/-! ### Character-level string primitives

Python's `str.strip`, `str.split("-")`, `str.replace("-", " ")` and
substring test `"-" in s` are embedded as structurally recursive functions
on the character list of a `String` (the core library's `String.trim`,
`String.splitOn` and `String.replace` are not used because their
accumulator loops do not reduce in the kernel). -/

/-- Python `s.strip()`: drop leading and trailing whitespace characters. -/
def pyStripChars (l : List Char) : List Char :=
  ((l.dropWhile Char.isWhitespace).reverse.dropWhile Char.isWhitespace).reverse

/-- Python `s.strip()` on a `String`. -/
def pyStrip (s : String) : String :=
  ⟨pyStripChars s.data⟩

/-- Python `s.split(sep)` for a one-character separator: splitting the
empty string yields `[""]`. -/
def splitOnChar (c : Char) : List Char → List (List Char)
  | [] => [[]]
  | x :: xs =>
    let r := splitOnChar c xs
    if x = c then [] :: r
    else
      match r with
      | [] => [[x]]
      | y :: ys => (x :: y) :: ys

/-- Python `s.split("-")` on a `String`. -/
def pySplitHyphen (s : String) : List String :=
  (splitOnChar '-' s.data).map (fun l => ⟨l⟩)

/-- Python `s.replace("-", " ")` on a `String`. -/
def pyReplaceHyphen (s : String) : String :=
  ⟨s.data.map (fun x => if x = '-' then ' ' else x)⟩

/-- Python `"-" in s` on a `String`. -/
def pyContainsHyphen (s : String) : Bool :=
  s.data.contains '-'

/-! ### API client: backoff (src/sheerid_client.py, `_compute_backoff_sec`) -/

/-- Default `backoff_cap_sec` from `ClientSettings` (src/sheerid_client.py). -/
def backoffCapDefault : ℚ := 30

/-- Embedding of `SheerIDClient._compute_backoff_sec`:
`base = 2 ** max(0, attempt); return min(cap, base + jitter)`.
The jitter is `random.uniform(0, 1)`, passed here explicitly. -/
def computeBackoffSec (cap : ℚ) (attempt : ℤ) (jitter : ℚ) : ℚ :=
  min cap ((2 : ℚ) ^ (max 0 attempt).toNat + jitter)

/-! ### API client: request/retry loop (src/sheerid_client.py, `request_json`) -/

/-- Outcome of one transport call (`self.request.fetch` plus body parsing):
either the call throws, or it yields a parsed body and an HTTP status. -/
inductive TransportOut where
  | throws
  | ok (body : String) (status : Nat)
deriving Repr, DecidableEq

/-- Statuses that trigger a retry in `request_json`:
`{408, 429, 500, 502, 503, 504}`. -/
def retryableStatus (s : Nat) : Bool :=
  s == 408 || s == 429 || s == 500 || s == 502 || s == 503 || s == 504

/-- Whether a transport outcome causes `request_json` to retry:
an exception always does, a response only when its status is retryable. -/
def retryableOut : TransportOut → Bool
  | .throws => true
  | .ok _ s => retryableStatus s

/-- Terminal behaviour of `request_json` on a given final transport outcome:
a response is returned as `(body, status)`, an exception is re-raised. -/
def outOf : TransportOut → Except Unit (String × Nat)
  | .throws => .error ()
  | .ok b s => .ok (b, s)

/-- Result of `request_json` together with the number of transport calls
actually performed. -/
structure ReqOutcome where
  result : Except Unit (String × Nat)
  calls : Nat
deriving Repr

/-- Embedding of the `for attempt in range(self.settings.max_retries + 1)`
loop of `request_json`.  `attempt` is the current 0-based attempt index and
`left` the number of attempts still allowed after this one (so in the source
`attempt < max_retries` corresponds to `left > 0`).  On the final attempt a
response is returned regardless of status and an exception is re-raised. -/
def requestFrom (tr : Nat → TransportOut) : Nat → Nat → ReqOutcome
  | attempt, 0 =>
    match tr attempt with
    | .throws => ⟨.error (), attempt + 1⟩
    | .ok b s => ⟨.ok (b, s), attempt + 1⟩
  | attempt, left + 1 =>
    match tr attempt with
    | .throws => requestFrom tr (attempt + 1) left
    | .ok b s =>
      if retryableStatus s then requestFrom tr (attempt + 1) left
      else ⟨.ok (b, s), attempt + 1⟩

/-- Embedding of `SheerIDClient.request_json`: run the attempt loop from
attempt 0 with `maxRetries` additional attempts allowed. -/
def requestJson (tr : Nat → TransportOut) (maxRetries : Nat) : ReqOutcome :=
  requestFrom tr 0 maxRetries

/-- Default `max_retries` from `ClientSettings` (src/sheerid_client.py). -/
def defaultMaxRetries : Nat := 1

/-! ### Organization selector: search-term derivation
(src/form_filler.py, `fill_org_and_select_first`, lines 416-424) -/

/-- Embedding of the candidate search-term list built in
`fill_org_and_select_first`:

```
raw_name = (org_name or "").strip()
if "-" in raw_name:
    parts = [p.strip() for p in raw_name.split("-") if p.strip()]
    if len(parts) > 1: search_terms.append(parts[-1])
clean_name = raw_name.replace("-", " ").strip()
if clean_name and clean_name not in search_terms: search_terms.append(clean_name)
if raw_name and raw_name not in search_terms: search_terms.append(raw_name)
```
-/
def partsOf (rawName : String) : List String :=
  ((pySplitHyphen rawName).map pyStrip).filter (fun p => p ≠ "")

/-- The `search_terms.append(...)` step guarded by
`if term and term not in search_terms` in the source. -/
def appendIfTruthyAbsent (l : List String) (x : String) : List String :=
  if x ≠ "" ∧ ¬ x ∈ l then l ++ [x] else l

/-- Python `clean_name = raw_name.replace("-", " ").strip()`. -/
def cleanOf (rawName : String) : String :=
  pyStrip (pyReplaceHyphen rawName)

/-- The initial segment of the candidate list: the trailing non-empty
stripped segment of a hyphen split, when the raw name contains a hyphen
and the split has more than one such segment. -/
def termsHead (rawName : String) : List String :=
  if pyContainsHyphen rawName then
    if 1 < (partsOf rawName).length then [((partsOf rawName).getLast?).getD ""] else []
  else []

/-- The candidate list built from an already-stripped organization name. -/
def searchTermsCore (rawName : String) : List String :=
  appendIfTruthyAbsent (appendIfTruthyAbsent (termsHead rawName) (cleanOf rawName)) rawName

def searchTerms (orgName : String) : List String :=
  searchTermsCore (pyStrip orgName)

/-- Terms actually tried by the term loop: the loop body starts with
`if len(term) < 2: continue`, so terms shorter than 2 characters are
skipped. -/
def triedTerms (orgName : String) : List String :=
  (searchTerms orgName).filter (fun t => 2 ≤ t.length)

/-- Appending a term unless it is already present, as the spec words it
(used only on the spec side of the comparison). -/
def appendIfAbsent (l : List String) (x : String) : List String :=
  if x ∈ l then l else l ++ [x]

/-- The spec side's initial segment: the trailing segment when the name
contains a hyphenated compound with more than one non-empty segment. -/
def termsHeadSpec (rawName : String) : List String :=
  if pyContainsHyphen rawName = true ∧ 1 < (partsOf rawName).length then
    [((partsOf rawName).getLast?).getD ""]
  else []

/-- Modelled from the spec wording of the search-term derivation (used only
to compare with the source-derived `searchTerms`): the trailing segment of a
hyphenated compound with more than one non-empty segment first, then the
name with hyphens replaced by spaces if not already present, then the raw
name if not already present. -/
def searchTermsSpec (orgName : String) : List String :=
  appendIfAbsent
    (appendIfAbsent (termsHeadSpec (pyStrip orgName)) (cleanOf (pyStrip orgName)))
    (pyStrip orgName)

/-! ### Organization selector: selection rounds
(src/form_filler.py, `fill_org_and_select_first`, lines 476-514) -/

/-- One selection strategy action: the keyboard strategy (arrow-down then
enter) or the synthetic-pointer-event strategy against the first matching
option node. -/
inductive SelAct where
  | kbd
  | ptr
deriving Repr, DecidableEq

/-- Simulated document check `_check_org_id_filled`: the hidden
organization-identifier field reads as populated once at least
`filledAfter` strategy actions have been performed (and stays populated). -/
def idFilled (filledAfter actionsDone : Nat) : Bool :=
  decide (filledAfter ≤ actionsDone)

/-- Outcome of the `for _ in range(4)` selection-round loop: number of
rounds attempted, number of strategy actions performed, whether the loop
exited early because the hidden identifier was seen populated, and the
sequence of strategy actions performed. -/
structure RoundOutcome where
  rounds : Nat
  actions : Nat
  early : Bool
  acts : List SelAct
deriving Repr, DecidableEq

/-- Embedding of the selection-round loop: each round presses
arrow-down/enter (one keyboard action), checks the hidden identifier and
breaks if populated, otherwise dispatches synthetic pointer events on the
first option (one pointer action), checks again and breaks if populated. -/
def runSelectionRounds (filledAfter : Nat) : Nat → Nat → Nat → RoundOutcome
  | 0, rounds, actions => ⟨rounds, actions, false, []⟩
  | fuel + 1, rounds, actions =>
    let a1 := actions + 1
    if idFilled filledAfter a1 then ⟨rounds + 1, a1, true, [.kbd]⟩
    else
      let a2 := a1 + 1
      if idFilled filledAfter a2 then ⟨rounds + 1, a2, true, [.kbd, .ptr]⟩
      else
        let rest := runSelectionRounds filledAfter fuel (rounds + 1) a2
        ⟨rest.rounds, rest.actions, rest.early, .kbd :: .ptr :: rest.acts⟩

/-- Round budget of the selection loop (`for _ in range(4)`). -/
def roundBudget : Nat := 4

/-- The selection-round loop run with its configured budget of 4 rounds. -/
def selectOrgRounds (filledAfter : Nat) : RoundOutcome :=
  runSelectionRounds filledAfter roundBudget 0 0

/-- The expected alternating keyboard/pointer action sequence of length
`n`, starting with the keyboard strategy. -/
def altActs (n : Nat) : List SelAct :=
  (List.range n).map (fun i => if i % 2 = 0 then SelAct.kbd else SelAct.ptr)

/-- After the round loop, `_check_org_selected_strict` confirms selection
via the rendered selected card or via the hidden identifier (the post-loop
polling performs no further strategy actions, so the identifier state is
that reached by the round loop). -/
def orgConfirmed (filledAfter : Nat) (selectedCard : Bool) : Bool :=
  selectedCard || idFilled filledAfter (selectOrgRounds filledAfter).actions

/-! ### Form-ready snapshot and submit-readiness gate
(src/form_ready_dump.py `dump_form_ready`, and
src/verification_orchestrator.py `run`, lines 258-306) -/

/-- The fields of the dictionary built by `dump_form_ready` that the
submit-readiness gate reads.  Field types follow the dump: `schoolId` and
`schoolText` are `Optional[str]`, `consentChecked` is an optional bool
(`ensure_consent_checked` / `any_checked` can yield `True`, `False` or
`None`), `ariaInvalidCount` is an `int` (`-1` when the count raised). -/
structure FormReadySnapshot where
  schoolId : Option String
  schoolText : Option String
  consentChecked : Option Bool
  ariaInvalidCount : Int
deriving Repr, DecidableEq

/-- Python `str(x or "")` for an optional string: `None` and `""` are falsy
and give `""`, any other string is returned unchanged. -/
def pyStrOrEmpty : Option String → String
  | none => ""
  | some s => s

/-- Python `str(v).lower()` for an optional bool: `str` yields `"None"`,
`"True"` or `"False"`, and `.lower()` maps these to `"none"`, `"true"`,
`"false"`. -/
def pyStrLowerOfOptBool : Option Bool → String
  | none => "none"
  | some true => "true"
  | some false => "false"

/-- Python `v == 1` for an optional bool: `True == 1` holds, `False == 1`
and `None == 1` do not. -/
def pyEqOne : Option Bool → Bool
  | some true => true
  | _ => false

/-- Gate clause `school_ok` of `VerificationOrchestrator.run`:
`bool(str(school_id or "").strip()) or bool(str(school_text or "").strip())`. -/
def school_ok (s : FormReadySnapshot) : Bool :=
  pyStrip (pyStrOrEmpty s.schoolId) != "" || pyStrip (pyStrOrEmpty s.schoolText) != ""

/-- Gate clause `consent_ok`:
`(consent_val is True) or (str(consent_val).lower() == "true") or (consent_val == 1)`. -/
def consent_ok (v : Option Bool) : Bool :=
  v == some true || pyStrLowerOfOptBool v == "true" || pyEqOne v

/-- Python `int(invalid_count or 0)` for an `int` field: `0` is falsy and
maps to `0`, any other int is returned unchanged (the `except` fallback to
`0` only fires for non-numeric values, which the dump never produces). -/
def pyIntOrZero (n : Int) : Int :=
  if n = 0 then 0 else n

/-- Gate clause `aria_ok`: `int(invalid_count or 0) == 0`. -/
def aria_ok (n : Int) : Bool :=
  pyIntOrZero n == 0

/-- The submit-readiness gate of `VerificationOrchestrator.run`:
`school_ok and consent_ok and aria_ok`. -/
def gatePasses (s : FormReadySnapshot) : Bool :=
  school_ok s && consent_ok s.consentChecked && aria_ok s.ariaInvalidCount

/-! ### Orchestrator control flow (src/verification_orchestrator.py, `run`) -/

/-- Browser interactions performed by `VerificationOrchestrator.run`,
in the order the dependency calls are made. -/
inductive BAction where
  | navigate
  | fillFirstName
  | fillLastName
  | fillEmail
  | fillOrg
  | fillBirthDate
  | checkBoxes
  | submit
deriving Repr, DecidableEq

/-- Kind of result dictionary returned by `run` (and by `verify`), keyed by
the distinct `message` strings of the source. -/
inductive MsgKind where
  | precheckEnded (step : String)
  | gotoFailedForceUi
  | locateFailedForceUi
  | dryRunDone
  | gateFailed (s : FormReadySnapshot)
  | submitError
  | stepNotAdvanced
  | submitted (step : String)
  | unhandledException
  | singleUseViolation
  | noEmail
  | unknownSchool
deriving Repr, DecidableEq

/-- The `success` flag and message kind of the result dictionary. -/
structure RunResult where
  success : Bool
  msg : MsgKind
deriving Repr, DecidableEq

/-- The initial workflow step. -/
def collectStep : String := "collectStudentPersonalInfo"

/-- Behaviour of the injected dependencies for one `run`: the precheck
step, the two environment overrides, whether `page.goto` and
`locate_form_frame` raise, the snapshot produced by the first
`dump_form_ready` call (`none` when the dump is absent, returns no dict or
raises), the snapshot produced by the re-dump after the consent retry
(`none` when that call raises, keeping the previously read fields),
whether the gate evaluation block itself raises, and the step returned by
each post-submit precheck poll. -/
structure OrchEnv where
  precheckStep : String
  forceUi : Bool
  dryRun : Bool
  gotoFails : Bool
  locateFails : Bool
  dump1 : Option FormReadySnapshot
  redump : Option FormReadySnapshot
  gateThrows : Bool
  poll : Nat → String

/-- The post-submit poll loop (`for _ in range(6)`): record each precheck
step, stopping early when it moved off `collectStudentPersonalInfo`;
the value is the last step examined. -/
def pollLast (poll : Nat → String) : Nat → Nat → String
  | i, 0 => poll i
  | i, fuel + 1 => if poll i != collectStep then poll i else pollLast poll (i + 1) fuel

/-- The snapshot the gate evaluates, when it evaluates one: the first dump,
re-read once after re-checking the consent boxes when its `consentChecked`
was not `True` (a re-dump that raises keeps the previously read fields). -/
def gateSnapshot (env : OrchEnv) : Option FormReadySnapshot :=
  if env.gateThrows then none
  else
    env.dump1.map (fun s =>
      if s.consentChecked != some true then env.redump.getD s else s)

/-- Browser interactions up to and including the checkbox pass, performed
once the browser stage is reached and the page and form frame resolve. -/
def fillActs : List BAction :=
  [.navigate, .fillFirstName, .fillLastName, .fillEmail, .fillOrg, .fillBirthDate, .checkBoxes]

/-- Tail of `run` after the submit click: soft-wait, then poll the precheck
step up to 6 times and classify the outcome. -/
def afterSubmit (env : OrchEnv) (acts : List BAction) : RunResult × List BAction :=
  let acts1 := acts ++ [BAction.submit]
  let lastStep := pollLast env.poll 0 5
  if lastStep = "error" then (⟨false, .submitError⟩, acts1)
  else if lastStep = collectStep then (⟨false, .stepNotAdvanced⟩, acts1)
  else (⟨true, .submitted lastStep⟩, acts1)

/-- Extra checkbox pass performed inside the gate block when the first
dump's `consentChecked` was not `True`. -/
def retryActsOf : Option FormReadySnapshot → List BAction
  | some s0 => if s0.consentChecked != some true then [.checkBoxes] else []
  | none => []

/-- Embedding of `VerificationOrchestrator.run`: precheck gate, browser
stage (navigation, form fill), optional dry-run stop, submit-readiness
gate, submit click and post-submit polling.  The returned list records
the browser interactions performed, in order. -/
def runModel (env : OrchEnv) : RunResult × List BAction :=
  if env.precheckStep ≠ collectStep ∧ ¬ env.forceUi then
    (⟨env.precheckStep != "error", .precheckEnded env.precheckStep⟩, [])
  else if env.gotoFails then
    if env.forceUi then (⟨false, .gotoFailedForceUi⟩, [.navigate])
    else (⟨false, .unhandledException⟩, [.navigate])
  else if env.locateFails then
    if env.forceUi then (⟨false, .locateFailedForceUi⟩, [.navigate])
    else (⟨false, .unhandledException⟩, [.navigate])
  else if env.dryRun then (⟨true, .dryRunDone⟩, fillActs)
  else
    match gateSnapshot env with
    | none => afterSubmit env fillActs
    | some s =>
      if gatePasses s then afterSubmit env (fillActs ++ retryActsOf env.dump1)
      else (⟨false, .gateFailed s⟩, fillActs ++ retryActsOf env.dump1)

/-! ### Status poller (src/sheerid_api_service.py, `precheck`) -/

/-- Embedding of `pre_data.get("currentStep", "collectStudentPersonalInfo")`:
the `currentStep` field of the precheck payload, defaulting to the initial
step when the field is absent. -/
def precheckStepOf (currentStepField : Option String) : String :=
  currentStepField.getD collectStep

/-! ### Verifier entry point (src/sheerid_verifier.py, `verify`) -/

/-- What the caller of `verify` observes: either a returned result
dictionary or an exception propagated out of `verify`. -/
inductive VerifyOutcome where
  | returned (r : RunResult)
  | raisedToCaller (msg : String)
deriving Repr, DecidableEq

/-- Whether a `verify` outcome is an exception propagated to the caller. -/
def VerifyOutcome.isRaisedToCaller : VerifyOutcome → Bool
  | .raisedToCaller _ => true
  | .returned _ => false

/-- Mutable state of a `SheerIDVerifier` instance relevant to the
single-use contract. -/
structure VerifierState where
  hasRun : Bool
deriving Repr, DecidableEq

/-- Embedding of `SheerIDVerifier.verify`: the whole body runs inside
`try: ... except Exception as e: return {success: False, message: str(e), ...}`,
so every internal raise — including the single-use violation raised when
`_has_run` is already set — is converted into a returned failure
dictionary.  Returns the outcome seen by the caller and the state left
behind. -/
def verifyModel (st : VerifierState) (email : Option String)
    (schoolKnown : Bool) (env : OrchEnv) : VerifyOutcome × VerifierState :=
  if st.hasRun then
    (.returned ⟨false, .singleUseViolation⟩, st)
  else
    let st1 : VerifierState := ⟨true⟩
    match email with
    | none => (.returned ⟨false, .noEmail⟩, st1)
    | some _ =>
      if ¬ schoolKnown then (.returned ⟨false, .unknownSchool⟩, st1)
      else (.returned (runModel env).1, st1)

/-! ### Locale handling in precheck (src/sheerid_verifier.py, `_do_precheck`,
lines 149-168, and header construction in src/sheerid_client.py) -/

/-- Locale-related mutable state of the verifier/client pair: the
verifier's `locale` and the `accept_language` used for outbound headers. -/
structure LocaleState where
  locale : String
  acceptLanguage : String
deriving Repr, DecidableEq

/-- The Accept-Language string built on a server locale override:
`f"{srv},{srv.split('-')[0]};q=0.9,en-US;q=0.8,en;q=0.7"`. -/
def mkAcceptLanguage (srv : String) : String :=
  srv ++ "," ++ ((pySplitHyphen srv).headD srv) ++ ";q=0.9,en-US;q=0.8,en;q=0.7"

/-- Embedding of the locale update in `_do_precheck`:
`srv_locale = (pre_data.get("locale") or "").strip()`, and when it is
non-empty and differs from the current locale, both `locale` and
`accept_language` are overwritten (and the API client's header source is
updated); otherwise the state is unchanged. -/
def localeStep (st : LocaleState) (payloadLocale : Option String) : LocaleState :=
  let srv := pyStrip (pyStrOrEmpty payloadLocale)
  if srv ≠ "" ∧ srv ≠ st.locale then ⟨srv, mkAcceptLanguage srv⟩ else st

/-- Locale state after a run's sequence of precheck payloads. -/
def localeRun (st : LocaleState) (payloads : List (Option String)) : LocaleState :=
  payloads.foldl localeStep st

/-- Header construction in `SheerIDClient.request_json`: the
`Accept-Language` header is sent iff the client's `accept_language` is
non-empty, and carries that value; it is recomputed on every call. -/
def acceptLanguageHeader (acceptLanguage : String) : Option String :=
  if acceptLanguage ≠ "" then some acceptLanguage else none

/-! ### Concrete dependency behaviours used to instantiate the theorems -/

/-- Transport that returns a retryable 503 on the first attempt and a 200
on every later attempt. -/
def trFlaky : Nat → TransportOut :=
  fun i => if i = 0 then .ok "overloaded" 503 else .ok "done" 200

/-- Orchestrator environment whose precheck reports step `error`. -/
def envPrecheckError : OrchEnv :=
  ⟨"error", false, false, false, false, none, none, false, fun _ => ""⟩

/-- Orchestrator environment reaching the gate with a snapshot that has
neither a school id nor school display text. -/
def envGateFail : OrchEnv :=
  ⟨collectStep, false, false, false, false,
    some ⟨some "", some "", some true, 0⟩, none, false, fun _ => "success"⟩

/-- Orchestrator environment in which the form-ready dump yields no
dictionary. -/
def envNoDump : OrchEnv :=
  ⟨collectStep, false, false, false, false, none, none, false, fun _ => "success"⟩

/-- Initial locale state configured in `SheerIDVerifier.__init__` under the
default `ONE_SHEERID_FORCE_EN_US=1`. -/
def lsInit : LocaleState := ⟨"en-US", "en-US,en;q=0.9"⟩

end SheerID

namespace SheerID

/-! ## Helper lemmas -/

/-- The gate's `consent_ok` coercion chain collapses, on the optional-bool
values the dump produces, to the value being exactly `True`. -/
theorem consent_ok_iff (v : Option Bool) : consent_ok v = true ↔ v = some true := by
  cases v with
  | none => decide
  | some b => cases b <;> decide

/-- The gate's `aria_ok` holds exactly when the dumped count is zero. -/
theorem aria_ok_iff (n : Int) : aria_ok n = true ↔ n = 0 := by
  by_cases h : n = 0 <;> simp [aria_ok, pyIntOrZero, h]

/-- The gate's `school_ok` holds exactly when the id or the display text is
non-empty after stripping. -/
theorem school_ok_iff (s : FormReadySnapshot) :
    school_ok s = true ↔
      (pyStrip (pyStrOrEmpty s.schoolId) ≠ "" ∨ pyStrip (pyStrOrEmpty s.schoolText) ≠ "") := by
  simp [school_ok, Bool.or_eq_true, bne_iff_ne]

/-- Combined characterization of the submit-readiness gate. -/
theorem gatePasses_iff (s : FormReadySnapshot) :
    gatePasses s = true ↔
      ((pyStrip (pyStrOrEmpty s.schoolId) ≠ "" ∨ pyStrip (pyStrOrEmpty s.schoolText) ≠ "") ∧
        s.consentChecked = some true ∧ s.ariaInvalidCount = 0) := by
  simp [gatePasses, Bool.and_eq_true, school_ok_iff, consent_ok_iff, aria_ok_iff, and_assoc]

/-- The trace of `afterSubmit` is the accumulated actions followed by the
submit click, in every poll outcome. -/
theorem afterSubmit_trace (env : OrchEnv) (acts : List BAction) :
    (afterSubmit env acts).2 = acts ++ [BAction.submit] := by
  simp only [afterSubmit]
  split_ifs <;> rfl

/-- The Accept-Language value built on a server locale override is never
the empty string, so the header is always sent after an update. -/
theorem mkAcceptLanguage_ne_empty (srv : String) : mkAcceptLanguage srv ≠ "" := by
  intro h
  have hlen := congrArg String.length h
  rw [mkAcceptLanguage] at hlen
  simp only [String.length_append] at hlen
  have h1 : ("," : String).length = 1 := rfl
  have h2 : (";q=0.9,en-US;q=0.8,en;q=0.7" : String).length = 27 := rfl
  have h3 : ("" : String).length = 0 := rfl
  omega

/-- Invariant of the retry loop of `request_json`, generalized over the
starting attempt: the number of calls is between one and `left + 1` more
than the starting attempt, every non-final call had a retryable outcome,
and the result is the outcome of the final call. -/
theorem requestFrom_spec (tr : Nat → TransportOut) :
    ∀ left attempt,
      attempt + 1 ≤ (requestFrom tr attempt left).calls ∧
      (requestFrom tr attempt left).calls ≤ attempt + left + 1 ∧
      (∀ i, attempt ≤ i → i + 1 < (requestFrom tr attempt left).calls →
        retryableOut (tr i) = true) ∧
      (requestFrom tr attempt left).result =
        outOf (tr ((requestFrom tr attempt left).calls - 1)) := by
  intro left
  induction left with
  | zero =>
    intro attempt
    have hrw : requestFrom tr attempt 0 = ⟨outOf (tr attempt), attempt + 1⟩ := by
      cases h : tr attempt <;> simp [requestFrom, h, outOf]
    rw [hrw]
    refine ⟨le_refl _, ?_, ?_, ?_⟩
    · show attempt + 1 ≤ attempt + 0 + 1
      omega
    · intro i hi hlt
      have hlt2 : i + 1 < attempt + 1 := hlt
      omega
    · show outOf (tr attempt) = outOf (tr (attempt + 1 - 1))
      simp
  | succ left ih =>
    intro attempt
    cases h : tr attempt with
    | throws =>
      have hrw : requestFrom tr attempt (left + 1) = requestFrom tr (attempt + 1) left := by
        simp only [requestFrom, h]
      obtain ⟨ih1, ih2, ih3, ih4⟩ := ih (attempt + 1)
      rw [hrw]
      refine ⟨by omega, by omega, ?_, ih4⟩
      intro i hi hlt
      rcases Nat.eq_or_lt_of_le hi with heq | hgt
      · rw [← heq, h]; rfl
      · exact ih3 i hgt hlt
    | ok b s =>
      by_cases hr : retryableStatus s = true
      · have hrw : requestFrom tr attempt (left + 1) = requestFrom tr (attempt + 1) left := by
          simp only [requestFrom, h, hr, if_true]
        obtain ⟨ih1, ih2, ih3, ih4⟩ := ih (attempt + 1)
        rw [hrw]
        refine ⟨by omega, by omega, ?_, ih4⟩
        intro i hi hlt
        rcases Nat.eq_or_lt_of_le hi with heq | hgt
        · rw [← heq, h]; simpa [retryableOut] using hr
        · exact ih3 i hgt hlt
      · have hrw : requestFrom tr attempt (left + 1) =
            ⟨.ok (b, s), attempt + 1⟩ := by
          simp only [requestFrom, h, hr, if_false, Bool.false_eq_true]
        rw [hrw]
        refine ⟨le_refl _, ?_, ?_, ?_⟩
        · show attempt + 1 ≤ attempt + (left + 1) + 1
          omega
        · intro i hi hlt
          have hlt2 : i + 1 < attempt + 1 := hlt
          omega
        · show Except.ok (b, s) = outOf (tr (attempt + 1 - 1))
          simp [h, outOf]

/-! ## Claim theorems -/

/-- C4: for every sequence of transport responses, `request_json` performs
at most `maxRetries` (default 1) additional transport calls; every
non-final call had a retryable outcome (status in {408, 429, 500, 502,
503, 504} or a thrown transport exception); after exhausting retries the
final call's exception is re-raised, and otherwise the final (body,
status) pair is returned unchanged even when the status is an error
status. -/
theorem request_json_retry_contract :
    ∀ (tr : Nat → TransportOut) (maxRetries : Nat),
      1 ≤ (requestJson tr maxRetries).calls ∧
      (requestJson tr maxRetries).calls ≤ maxRetries + 1 ∧
      (∀ i, i + 1 < (requestJson tr maxRetries).calls → retryableOut (tr i) = true) ∧
      (∀ b s, tr ((requestJson tr maxRetries).calls - 1) = .ok b s →
        (requestJson tr maxRetries).result = .ok (b, s)) ∧
      (tr ((requestJson tr maxRetries).calls - 1) = .throws →
        (requestJson tr maxRetries).result = .error ()) ∧
      defaultMaxRetries = 1 := by
  intro tr maxRetries
  obtain ⟨h1, h2, h3, h4⟩ := requestFrom_spec tr maxRetries 0
  refine ⟨h1, by simpa using h2, fun i hlt => h3 i (Nat.zero_le i) hlt, ?_, ?_, rfl⟩
  · intro b s hb
    have hb2 : tr ((requestFrom tr 0 maxRetries).calls - 1) = .ok b s := hb
    rw [show requestJson tr maxRetries = requestFrom tr 0 maxRetries from rfl, h4, hb2]
    rfl
  · intro hb
    have hb2 : tr ((requestFrom tr 0 maxRetries).calls - 1) = .throws := hb
    rw [show requestJson tr maxRetries = requestFrom tr 0 maxRetries from rfl, h4, hb2]
    rfl

/-- Witness for C4: with a transport that 503s once then succeeds and the
default single retry, the non-final call is classified retryable. -/
theorem request_json_retry_contract_witness :
    retryableOut (trFlaky 0) = true :=
  (request_json_retry_contract trFlaky 1).2.2.1 0 (by decide)

/-- C5: the backoff delay for attempt `i ≥ 0` and jitter `j ∈ [0, 1]`
equals `min(backoffCap, 2 ^ i + j)`, never exceeds the configured cap
(default 30 s), and for fixed jitter is monotonically non-decreasing in
the attempt index. -/
theorem backoff_formula_cap_monotone :
    ∀ (cap : ℚ) (i : ℕ) (j : ℚ), 0 ≤ j → j ≤ 1 →
      computeBackoffSec cap i j = min cap ((2 : ℚ) ^ i + j) ∧
      computeBackoffSec cap i j ≤ cap ∧
      (∀ k : ℕ, i ≤ k → computeBackoffSec cap i j ≤ computeBackoffSec cap k j) ∧
      backoffCapDefault = 30 := by
  intro cap i j _ _
  refine ⟨?_, min_le_left _ _, ?_, rfl⟩
  · simp [computeBackoffSec]
  · intro k hik
    unfold computeBackoffSec
    refine min_le_min (le_refl cap) (add_le_add_right ?_ j)
    refine pow_le_pow_right₀ (by norm_num) ?_
    simpa using hik

/-- Witness for C5: at cap 30, attempts 0 and 1 and jitter 1/2, the
formula, the cap bound and monotonicity hold. -/
theorem backoff_formula_cap_monotone_witness :
    computeBackoffSec 30 (0 : ℕ) (1 / 2) = min 30 ((2 : ℚ) ^ (0 : ℕ) + 1 / 2) ∧
    computeBackoffSec 30 (0 : ℕ) (1 / 2) ≤ 30 ∧
    computeBackoffSec 30 (0 : ℕ) (1 / 2) ≤ computeBackoffSec 30 (1 : ℕ) (1 / 2) := by
  obtain ⟨h1, h2, h3, _⟩ :=
    backoff_formula_cap_monotone 30 0 (1 / 2) (by norm_num) (by norm_num)
  exact ⟨h1, h2, h3 1 (by norm_num)⟩

/-- When the hidden identifier never reads as populated during the loop
(it would need at least 9 strategy actions), all four rounds run and the
loop exits without early success. -/
theorem selectOrgRounds_large (N : Nat) (h : 9 ≤ N) :
    selectOrgRounds N = ⟨4, 8, false,
      [.kbd, .ptr, .kbd, .ptr, .kbd, .ptr, .kbd, .ptr]⟩ := by
  have hf : ∀ k, k ≤ 8 → idFilled N k = false := by
    intro k hk
    simp only [idFilled, decide_eq_false_iff_not]
    omega
  simp [selectOrgRounds, roundBudget, runSelectionRounds,
    hf 1 (by norm_num), hf 2 (by norm_num), hf 3 (by norm_num), hf 4 (by norm_num),
    hf 5 (by norm_num), hf 6 (by norm_num), hf 7 (by norm_num), hf 8 (by norm_num)]

/-- C6: the per-term selection loop attempts at most its round budget of 4
rounds, exits early exactly when the hidden organization-identifier field
reads as populated within those rounds, never runs an extra round after
the identifier is populated (every fully completed earlier round had both
checks fail), and its action trace alternates the keyboard strategy with
the synthetic-pointer strategy; in the simulated document where the
identifier is populated only after the 3rd round, the loop stops after 3
rounds and the protocol confirms the selection. -/
theorem selection_rounds_budget_early_exit :
    (∀ N : Nat,
      (selectOrgRounds N).rounds ≤ roundBudget ∧
      ((selectOrgRounds N).early = true ↔ N ≤ 8) ∧
      ((selectOrgRounds N).early = true →
        2 * ((selectOrgRounds N).rounds - 1) < max N 1 ∧
          N ≤ 2 * (selectOrgRounds N).rounds) ∧
      (selectOrgRounds N).acts = altActs (selectOrgRounds N).actions) ∧
    selectOrgRounds 6 = ⟨3, 6, true, [.kbd, .ptr, .kbd, .ptr, .kbd, .ptr]⟩ ∧
    orgConfirmed 6 false = true := by
  refine ⟨?_, by decide, by decide⟩
  intro N
  rcases le_or_lt N 8 with h | h
  · interval_cases N <;> decide
  · rw [selectOrgRounds_large N (by omega)]
    refine ⟨by decide, ?_, ?_, by decide⟩
    · simp
      omega
    · simp

/-- Witness for C6: in the populated-after-round-3 scenario the early-exit
bound instantiates concretely. -/
theorem selection_rounds_budget_early_exit_witness :
    2 * ((selectOrgRounds 6).rounds - 1) < max 6 1 ∧
      6 ≤ 2 * (selectOrgRounds 6).rounds :=
  (selection_rounds_budget_early_exit.1 6).2.2.1 (by decide)

/-- The gate's extra checkbox pass never contains the submit click. -/
theorem submit_not_mem_retryActsOf (d : Option FormReadySnapshot) :
    BAction.submit ∉ retryActsOf d := by
  rcases d with _ | s0
  · simp [retryActsOf]
  · simp only [retryActsOf]
    split_ifs <;> simp

/-- C1: the submit-readiness gate passes exactly when the organization is
resolved (non-empty stripped school id or school display text), the
consent checkbox reads as checked, and the accessibility-invalid count is
zero; whenever the gate evaluates a snapshot and it fails, the run
returns a failure result carrying that snapshot and the submit control is
never invoked.  The two concrete snapshots of the claim pass and fail
respectively. -/
theorem submit_gate_characterization :
    (∀ s : FormReadySnapshot,
      gatePasses s = true ↔
        ((pyStrip (pyStrOrEmpty s.schoolId) ≠ "" ∨ pyStrip (pyStrOrEmpty s.schoolText) ≠ "") ∧
          s.consentChecked = some true ∧ s.ariaInvalidCount = 0)) ∧
    (∀ (env : OrchEnv) (s : FormReadySnapshot),
      env.precheckStep = collectStep → env.gotoFails = false → env.locateFails = false →
      env.dryRun = false → gateSnapshot env = some s → gatePasses s = false →
        (runModel env).1.success = false ∧
        (runModel env).1.msg = .gateFailed s ∧
        BAction.submit ∉ (runModel env).2) ∧
    gatePasses ⟨some "", some "Acme University", some true, 0⟩ = true ∧
    gatePasses ⟨some "", some "", some true, 0⟩ = false := by
  refine ⟨gatePasses_iff, ?_, by decide, by decide⟩
  intro env s h1 h2 h3 h4 h5 h6
  have hrun : runModel env =
      (⟨false, .gateFailed s⟩, fillActs ++ retryActsOf env.dump1) := by
    simp [runModel, h1, h2, h3, h4, h5, h6]
  refine ⟨by rw [hrun], by rw [hrun], ?_⟩
  rw [hrun]
  simp only [List.mem_append, not_or]
  exact ⟨by simp [fillActs], submit_not_mem_retryActsOf env.dump1⟩

/-- Witness for C1: a run whose dump yields the claim's failing snapshot
aborts with a gate-failure result and never clicks submit. -/
theorem submit_gate_characterization_witness :
    (runModel envGateFail).1.success = false ∧
    (runModel envGateFail).1.msg = .gateFailed ⟨some "", some "", some true, 0⟩ ∧
    BAction.submit ∉ (runModel envGateFail).2 :=
  submit_gate_characterization.2.1 envGateFail ⟨some "", some "", some true, 0⟩
    rfl rfl rfl rfl (by decide) (by decide)

/-- C2: when precheck returns a step other than the initial
`collectStudentPersonalInfo` and the force-continue override is unset,
the run ends immediately with `success = (step != "error")`, names the
step in its message, and performs no browser interaction at all; in
particular a precheck step `error` yields a failure result. -/
theorem precheck_gate_short_circuits :
    ∀ env : OrchEnv, env.precheckStep ≠ collectStep → env.forceUi = false →
      runModel env =
        (⟨env.precheckStep != "error", .precheckEnded env.precheckStep⟩,
          ([] : List BAction)) ∧
      (env.precheckStep = "error" →
        (runModel env).1 = ⟨false, .precheckEnded "error"⟩) := by
  intro env h1 h2
  have hrun : runModel env =
      (⟨env.precheckStep != "error", .precheckEnded env.precheckStep⟩, []) := by
    simp [runModel, h1, h2]
  refine ⟨hrun, ?_⟩
  intro he
  rw [hrun, he]
  simp

/-- Witness for C2: a precheck step `error` ends the run with a failure
and an empty interaction trace. -/
theorem precheck_gate_short_circuits_witness :
    runModel envPrecheckError =
      (⟨false, .precheckEnded "error"⟩, ([] : List BAction)) := by
  obtain ⟨h1, _⟩ :=
    precheck_gate_short_circuits envPrecheckError (by decide) rfl
  simpa using h1

/-- C9: when the form-ready dump yields no dictionary (absent, `None` or
raised) or the gate evaluation itself raises, the submit-readiness gate is
skipped entirely and the orchestrator proceeds to invoke the submit
control unguarded. -/
theorem gate_skipped_submits_unguarded :
    ∀ env : OrchEnv, env.precheckStep = collectStep → env.gotoFails = false →
      env.locateFails = false → env.dryRun = false →
      (env.dump1 = none ∨ env.gateThrows = true) →
        gateSnapshot env = none ∧
        runModel env = afterSubmit env fillActs ∧
        BAction.submit ∈ (runModel env).2 := by
  intro env h1 h2 h3 h4 h5
  have hgs : gateSnapshot env = none := by
    rcases h5 with h | h
    · simp [gateSnapshot, h]
    · simp [gateSnapshot, h]
  have hrun : runModel env = afterSubmit env fillActs := by
    simp [runModel, h1, h2, h3, h4, hgs]
  refine ⟨hgs, hrun, ?_⟩
  rw [hrun, afterSubmit_trace]
  simp

/-- Witness for C9: with the dump absent, the run reaches the submit
click without any gate decision. -/
theorem gate_skipped_submits_unguarded_witness :
    gateSnapshot envNoDump = none ∧
    runModel envNoDump = afterSubmit envNoDump fillActs ∧
    BAction.submit ∈ (runModel envNoDump).2 :=
  gate_skipped_submits_unguarded envNoDump rfl rfl rfl rfl (Or.inl rfl)

/-- Any run whose precheck step is the initial one reaches the browser
stage: the navigation is attempted whatever happens afterwards. -/
theorem navigate_mem_of_collect (env : OrchEnv) (h : env.precheckStep = collectStep) :
    BAction.navigate ∈ (runModel env).2 := by
  have h1 : ¬ (env.precheckStep ≠ collectStep ∧ ¬ env.forceUi) := by simp [h]
  simp only [runModel, h1, if_false]
  cases hg : env.gotoFails with
  | true => simp [hg]; split_ifs <;> simp
  | false =>
    cases hl : env.locateFails with
    | true => simp [hg, hl]; split_ifs <;> simp
    | false =>
      cases hd : env.dryRun with
      | true => simp [hg, hl, hd, fillActs]
      | false =>
        simp only [hg, hl, hd, Bool.false_eq_true, if_false]
        rcases hgs : gateSnapshot env with _ | s
        · simp [hgs, afterSubmit_trace, fillActs]
        · simp only [hgs]
          by_cases hp : gatePasses s = true
          · simp [hp, afterSubmit_trace, fillActs]
          · simp only [hp, Bool.false_eq_true, if_false]
            simp [hp, fillActs]

/-- C10: a precheck payload with no `currentStep` field yields the initial
step `collectStudentPersonalInfo`, and the orchestrator's precheck gate
then proceeds to the browser-fill stage (navigation is attempted) rather
than ending the run. -/
theorem precheck_missing_step_defaults :
    precheckStepOf none = collectStep ∧
    ∀ env : OrchEnv,
      BAction.navigate ∈
        (runModel { env with precheckStep := precheckStepOf none }).2 := by
  refine ⟨rfl, ?_⟩
  intro env
  exact navigate_mem_of_collect _ rfl

/-- C3 counterexample: a second `verify()` on an already-used instance
does not raise to the caller — the single-use failure is returned as a
structured result dictionary. -/
theorem second_run_not_raised_cex :
    (verifyModel ⟨true⟩ (some "user@example.com") true envPrecheckError).1 =
      .returned ⟨false, .singleUseViolation⟩ ∧
    (verifyModel ⟨true⟩ (some "user@example.com") true
        envPrecheckError).1.isRaisedToCaller = false :=
  ⟨rfl, rfl⟩

/-- C3 amended: a second invocation of `verify()` on the same instance
always fails with the single-use violation, regardless of the arguments
and of the first run's outcome, but `verify`'s own top-level handler
converts it into a returned failure result rather than raising it to the
caller. -/
theorem second_run_single_use_returned :
    ∀ (st : VerifierState) (email : Option String) (schoolKnown : Bool) (env : OrchEnv),
      st.hasRun = true →
        verifyModel st email schoolKnown env =
          (.returned ⟨false, .singleUseViolation⟩, st) ∧
        (verifyModel st email schoolKnown env).1.isRaisedToCaller = false := by
  intro st email schoolKnown env h
  have hm : verifyModel st email schoolKnown env =
      (.returned ⟨false, .singleUseViolation⟩, st) := by
    simp [verifyModel, h]
  exact ⟨hm, by rw [hm]; rfl⟩

/-- Witness for C3's amended claim at a concrete used instance. -/
theorem second_run_single_use_returned_witness :
    verifyModel ⟨true⟩ (some "user@example.com") false envNoDump =
      (.returned ⟨false, .singleUseViolation⟩, ⟨true⟩) :=
  (second_run_single_use_returned ⟨true⟩ (some "user@example.com") false envNoDump rfl).1

/-- C8 counterexample: the locale update is not a one-way ratchet.
Starting from the configured `en-US`, a precheck payload declaring
`fr-FR` updates the locale, and a later payload declaring `en-US` reverts
it to the earlier locale within the same run. -/
theorem locale_ratchet_cex :
    (localeRun lsInit [some "fr-FR"]).locale = "fr-FR" ∧
    (localeRun lsInit [some "fr-FR", some "en-US"]).locale = "en-US" ∧
    (localeRun lsInit [some "fr-FR", some "en-US"]).locale = lsInit.locale := by
  refine ⟨by decide, by decide, by decide⟩

/-- C8 amended: each precheck overwrites the verifier's locale and the
outbound Accept-Language value whenever the stripped server-declared
locale is non-empty and differs from the current one — tracking the
latest server value, which may revert to an earlier locale — and leaves
the state unchanged otherwise; after an update, subsequent requests send
the new Accept-Language header. -/
theorem locale_follows_server :
    ∀ (st : LocaleState) (p : Option String),
      (pyStrip (pyStrOrEmpty p) ≠ "" ∧ pyStrip (pyStrOrEmpty p) ≠ st.locale →
        localeStep st p =
          ⟨pyStrip (pyStrOrEmpty p), mkAcceptLanguage (pyStrip (pyStrOrEmpty p))⟩ ∧
        acceptLanguageHeader (localeStep st p).acceptLanguage =
          some (mkAcceptLanguage (pyStrip (pyStrOrEmpty p)))) ∧
      (pyStrip (pyStrOrEmpty p) = "" ∨ pyStrip (pyStrOrEmpty p) = st.locale →
        localeStep st p = st) := by
  intro st p
  constructor
  · intro h
    have hs : localeStep st p =
        ⟨pyStrip (pyStrOrEmpty p), mkAcceptLanguage (pyStrip (pyStrOrEmpty p))⟩ := by
      simp [localeStep, h]
    refine ⟨hs, ?_⟩
    rw [hs]
    simp only [acceptLanguageHeader]
    rw [if_pos (mkAcceptLanguage_ne_empty _)]
  · intro h
    rcases h with h | h <;> simp [localeStep, h]

/-- The last element (with default) of a non-empty list is a member. -/
theorem getLastD_mem {α : Type} (l : List α) (d : α) :
    l ≠ [] → ((l.getLast?).getD d) ∈ l := by
  induction l with
  | nil => intro h; contradiction
  | cons a as ih =>
    intro _
    cases has : as with
    | nil => subst has; simp [List.getLast?]
    | cons b bs =>
      subst has
      rw [List.getLast?_cons_cons]
      exact List.mem_cons_of_mem a (ih (by simp))

/-- Every segment kept by the split-and-filter step is non-empty. -/
theorem parts_mem_ne_empty (r x : String) (h : x ∈ partsOf r) : x ≠ "" := by
  unfold partsOf at h
  have := List.of_mem_filter h
  simpa using this

/-- The head segment of the candidate list never contains the empty
string. -/
theorem empty_not_mem_termsHead (r : String) : "" ∉ termsHead r := by
  unfold termsHead
  split_ifs with h1 h2
  · simp only [List.mem_singleton]
    intro he
    have hne : partsOf r ≠ [] := by
      intro h0
      rw [h0] at h2
      simp at h2
    have hmem : ((partsOf r).getLast?).getD "" ∈ partsOf r := getLastD_mem _ _ hne
    exact parts_mem_ne_empty r _ hmem (by rw [← he])
  · simp
  · simp

/-- The source's hyphen guard and the spec's compound condition produce
the same head segment. -/
theorem termsHead_eq_spec (r : String) : termsHead r = termsHeadSpec r := by
  unfold termsHead termsHeadSpec
  by_cases h1 : pyContainsHyphen r = true <;>
    by_cases h2 : 1 < (partsOf r).length <;>
    simp [h1, h2]

/-- The empty string survives no length-2 filter. -/
theorem filter_drop_empty (l : List String) :
    (l ++ [""]).filter (fun t => 2 ≤ t.length) = l.filter (fun t => 2 ≤ t.length) := by
  rw [List.filter_append]
  simp

/-- After filtering out short terms, the source's guarded append chain and
the spec's membership-only append chain agree, provided the cleaned name
can only be empty when the raw name is and the base list has no empty
string. -/
theorem append_chain_filter_eq (T : List String) (c r : String)
    (hcr : r = "" → c = "") (hT : "" ∉ T) :
    (appendIfTruthyAbsent (appendIfTruthyAbsent T c) r).filter (fun t => 2 ≤ t.length) =
    (appendIfAbsent (appendIfAbsent T c) r).filter (fun t => 2 ≤ t.length) := by
  by_cases hc : c = ""
  · subst hc
    have e1 : appendIfTruthyAbsent T "" = T := by simp [appendIfTruthyAbsent]
    have e2 : appendIfAbsent T "" = T ++ [""] := by simp [appendIfAbsent, hT]
    rw [e1, e2]
    by_cases hrr : r = ""
    · subst hrr
      have e3 : appendIfTruthyAbsent T "" = T := by simp [appendIfTruthyAbsent]
      have e4 : appendIfAbsent (T ++ [""]) "" = T ++ [""] := by
        simp [appendIfAbsent]
      rw [e3, e4, filter_drop_empty]
    · by_cases hm : r ∈ T
      · have e3 : appendIfTruthyAbsent T r = T := by simp [appendIfTruthyAbsent, hm]
        have e4 : appendIfAbsent (T ++ [""]) r = T ++ [""] := by
          simp [appendIfAbsent, List.mem_append, hm]
        rw [e3, e4, filter_drop_empty]
      · have e3 : appendIfTruthyAbsent T r = T ++ [r] := by
          simp [appendIfTruthyAbsent, hm, hrr]
        have e4 : appendIfAbsent (T ++ [""]) r = (T ++ [""]) ++ [r] := by
          simp [appendIfAbsent, List.mem_append, hm, hrr]
        rw [e3, e4, List.filter_append, List.filter_append, filter_drop_empty]
  · have hrne : r ≠ "" := fun hre => hc (hcr hre)
    have e1 : appendIfTruthyAbsent T c = appendIfAbsent T c := by
      by_cases hm : c ∈ T <;> simp [appendIfTruthyAbsent, appendIfAbsent, hm, hc]
    rw [e1]
    have e2 : appendIfTruthyAbsent (appendIfAbsent T c) r =
        appendIfAbsent (appendIfAbsent T c) r := by
      generalize appendIfAbsent T c = L
      by_cases hm : r ∈ L <;> simp [appendIfTruthyAbsent, appendIfAbsent, hm, hrne]
    rw [e2]

/-- The guarded append preserves duplicate-freeness. -/
theorem appendIfTruthyAbsent_nodup (l : List String) (x : String) (h : l.Nodup) :
    (appendIfTruthyAbsent l x).Nodup := by
  unfold appendIfTruthyAbsent
  split_ifs with hx
  · simp [List.nodup_append, h, hx.2]
  · exact h

/-- The head segment of the candidate list has no duplicates. -/
theorem termsHead_nodup (r : String) : (termsHead r).Nodup := by
  unfold termsHead
  split_ifs <;> simp

/-- The guarded append preserves non-emptiness. -/
theorem appendIfTruthyAbsent_ne_nil (l : List String) (x : String) (h : l ≠ []) :
    appendIfTruthyAbsent l x ≠ [] := by
  unfold appendIfTruthyAbsent
  split_ifs
  · simp
  · exact h

/-- The guarded append does not change the first element of a non-empty
list. -/
theorem appendIfTruthyAbsent_head? (l : List String) (x : String) (h : l ≠ []) :
    (appendIfTruthyAbsent l x).head? = l.head? := by
  unfold appendIfTruthyAbsent
  split_ifs
  · cases l with
    | nil => contradiction
    | cons a as => rfl
  · rfl

/-- C7: for every organization name, the tried candidate search terms
(those of length at least 2) are exactly, and in the same order, the
spec's list — trailing segment of a hyphenated compound first, then the
hyphens-to-spaces form if not already present, then the raw name if not
already present; the candidate list has no duplicates; and when the name
is a hyphenated compound with more than one non-empty segment, the
trailing segment is the first candidate. -/
theorem search_term_derivation_order :
    ∀ name : String,
      triedTerms name = (searchTermsSpec name).filter (fun t => 2 ≤ t.length) ∧
      (searchTerms name).Nodup ∧
      (pyContainsHyphen (pyStrip name) = true →
        1 < (partsOf (pyStrip name)).length →
        (searchTerms name).head? =
          some (((partsOf (pyStrip name)).getLast?).getD "")) := by
  intro name
  refine ⟨?_, ?_, ?_⟩
  · show (searchTermsCore (pyStrip name)).filter (fun t => 2 ≤ t.length) = _
    unfold searchTermsCore searchTermsSpec
    rw [← termsHead_eq_spec]
    apply append_chain_filter_eq
    · intro hre
      rw [cleanOf, hre]
      decide
    · exact empty_not_mem_termsHead _
  · exact appendIfTruthyAbsent_nodup _ _
      (appendIfTruthyAbsent_nodup _ _ (termsHead_nodup _))
  · intro h1 h2
    have hT : termsHead (pyStrip name) =
        [((partsOf (pyStrip name)).getLast?).getD ""] := by
      unfold termsHead
      rw [if_pos h1, if_pos h2]
    show (searchTermsCore (pyStrip name)).head? = _
    unfold searchTermsCore
    rw [appendIfTruthyAbsent_head?, appendIfTruthyAbsent_head?, hT]
    · rfl
    · rw [hT]; simp
    · apply appendIfTruthyAbsent_ne_nil
      rw [hT]; simp

/-- Witness for C7: the hyphenated name of the claim's motivating example
puts its trailing campus segment first. -/
theorem search_term_derivation_order_witness :
    (searchTerms "University of California-Berkeley").head? = some "Berkeley" := by
  have h := (search_term_derivation_order "University of California-Berkeley").2.2
    (by decide) (by decide)
  rw [h]
  decide

/-- Witness for C8's amended claim: the `fr-FR` payload updates the state
and the new Accept-Language header is sent afterwards. -/
theorem locale_follows_server_witness :
    localeStep lsInit (some "fr-FR") =
      ⟨pyStrip (pyStrOrEmpty (some "fr-FR")),
        mkAcceptLanguage (pyStrip (pyStrOrEmpty (some "fr-FR")))⟩ ∧
    acceptLanguageHeader (localeStep lsInit (some "fr-FR")).acceptLanguage =
      some (mkAcceptLanguage (pyStrip (pyStrOrEmpty (some "fr-FR")))) :=
  (locale_follows_server lsInit (some "fr-FR")).1 (by decide)

end SheerID
